import Mathlib

/-!
Verification of the spectral-index tutorial library (`spectral_indexes.py`,
`utils.py`) against its natural-language specification.

Numeric values are modelled by `FVal`, an idealised IEEE-754 value: a finite
rational, one of the two infinities, or NaN.  Signed zero is not modelled
(both IEEE zeros collapse to `fin 0`), which is adequate here because every
claim compares values numerically, and IEEE `+0.0 == -0.0`.

Band rasters handed to the index formulas are modelled as total functions
`Grid = Nat → Nat → FVal` (co-registered grids, elementwise arithmetic, which
is exactly numpy/xarray broadcasting-free semantics on same-shape arrays).
Labelled rasters entering `xr.concat`/`median` are modelled as `DataArray`,
a list of y coordinates, a list of x coordinates and a row-major list of
rows, because xarray's alignment semantics depend on the coordinate labels.
-/

/-- Idealised IEEE-754 double: finite rational, plus infinity, minus
infinity, or NaN. -/
inductive FVal where
  | fin (q : ℚ)
  | pinf
  | ninf
  | nan
deriving DecidableEq, Repr

/-- IEEE negation (numerically; the sign of zero is not tracked). -/
def fneg : FVal → FVal
  | FVal.fin q => FVal.fin (-q)
  | FVal.pinf => FVal.ninf
  | FVal.ninf => FVal.pinf
  | FVal.nan => FVal.nan

/-- IEEE addition: NaN absorbs, opposite infinities give NaN, an infinity
absorbs finite values. -/
def fadd : FVal → FVal → FVal
  | FVal.nan, _ => FVal.nan
  | _, FVal.nan => FVal.nan
  | FVal.pinf, FVal.ninf => FVal.nan
  | FVal.ninf, FVal.pinf => FVal.nan
  | FVal.pinf, _ => FVal.pinf
  | _, FVal.pinf => FVal.pinf
  | FVal.ninf, _ => FVal.ninf
  | _, FVal.ninf => FVal.ninf
  | FVal.fin a, FVal.fin b => FVal.fin (a + b)

/-- IEEE subtraction, as addition of the negation. -/
def fsub (x y : FVal) : FVal := fadd x (fneg y)

/-- IEEE division: NaN absorbs, inf/inf and 0/0 give NaN, finite/inf gives 0,
division of a nonzero value by zero gives a signed infinity (the zero
denominators produced by the formulas here are `+0`, since rational `x + y`
with `y = -x` is an exact positive zero in IEEE). -/
def fdiv : FVal → FVal → FVal
  | FVal.nan, _ => FVal.nan
  | _, FVal.nan => FVal.nan
  | FVal.pinf, FVal.pinf => FVal.nan
  | FVal.pinf, FVal.ninf => FVal.nan
  | FVal.ninf, FVal.pinf => FVal.nan
  | FVal.ninf, FVal.ninf => FVal.nan
  | FVal.fin _, FVal.pinf => FVal.fin 0
  | FVal.fin _, FVal.ninf => FVal.fin 0
  | FVal.pinf, FVal.fin b => if b < 0 then FVal.ninf else FVal.pinf
  | FVal.ninf, FVal.fin b => if b < 0 then FVal.pinf else FVal.ninf
  | FVal.fin a, FVal.fin b =>
      if b = 0 then
        if a = 0 then FVal.nan else if 0 < a then FVal.pinf else FVal.ninf
      else FVal.fin (a / b)

/-- Mean of two values, as numpy computes it for the middle pair of an
even-length median: sum first, then divide by two. -/
def favg (x y : FVal) : FVal := fdiv (fadd x y) (FVal.fin 2)

/-- True on NaN and on the two infinities (numpy `~isfinite`). -/
def isNonfinite : FVal → Bool
  | FVal.fin _ => false
  | _ => true

/-- True exactly on NaN. -/
def isNaN : FVal → Bool
  | FVal.nan => true
  | _ => false

/-- A co-registered 2-D raster of float cells, indexed by row and column. -/
abbrev Grid := Nat → Nat → FVal

/-- A band bundle (`xr.Dataset`): a finite mapping from band name to grid. -/
abbrev Dataset := List (String × Grid)

/-- Error kinds surfaced by the library (Python exceptions abstracted):
a missing band variable (`KeyError`), an empty reduction input
(`ValueError` from `xr.concat of an empty list`), and the error kinds the
specification names for alignment and empty-intersection failures. -/
inductive Err where
  | missingBand (band : String)
  | emptyInput
  | alignment
  | emptyIntersection
  | upstream
deriving DecidableEq, Repr

def bandRed : String := "red"
def bandGreen : String := "green"
def bandNir : String := "nir"
def bandSwir16 : String := "swir16"
def bandSwir22 : String := "swir22"

/-- Band access `data["b"]`: the grid when present, a `KeyError`
(`MissingBandError`) otherwise.  The `.astype("float")` cast is the identity
in this model, where cells are already float values. -/
def getBand (data : Dataset) (b : String) : Except Err Grid :=
  match data.lookup b with
  | some g => Except.ok g
  | none => Except.error (Err.missingBand b)

/-- Elementwise normalized difference `(a - b) / (a + b)`. -/
def ndGrid (a b : Grid) : Grid :=
  fun i j => fdiv (fsub (a i j) (b i j)) (fadd (a i j) (b i j))

/-- NDVI, from `spectral_indexes.return_ndvi`: `(nir - red) / (nir + red)`. -/
def return_ndvi (data : Dataset) : Except Err Grid := do
  let red ← getBand data bandRed
  let nir ← getBand data bandNir
  Except.ok (ndGrid nir red)

/-- NDBI, from `spectral_indexes.return_ndbi`:
`(swir22 - nir) / (swir22 + nir)`. -/
def return_ndbi (data : Dataset) : Except Err Grid := do
  let swir ← getBand data bandSwir22
  let nir ← getBand data bandNir
  Except.ok (ndGrid swir nir)

/-- NDWI (modified), from `spectral_indexes.return_ndwi`:
`(green - swir22) / (green + swir22)`. -/
def return_ndwi (data : Dataset) : Except Err Grid := do
  let green ← getBand data bandGreen
  let swir ← getBand data bandSwir22
  Except.ok (ndGrid green swir)

/-- NBAI, from `spectral_indexes.return_nbai`:
`(swir22 - green) / (swir22 + green)`. -/
def return_nbai (data : Dataset) : Except Err Grid := do
  let swir ← getBand data bandSwir22
  let green ← getBand data bandGreen
  Except.ok (ndGrid swir green)

/-- NBR, from `spectral_indexes.return_nbr`:
`(nir - swir22) / (nir + swir22)`. -/
def return_nbr (data : Dataset) : Except Err Grid := do
  let nir ← getBand data bandNir
  let swir ← getBand data bandSwir22
  Except.ok (ndGrid nir swir)

/-- dNBR, from `spectral_indexes.return_dnbr`: recomputes NBR inline for the
pre-fire and post-fire bundles and returns their literal difference. -/
def return_dnbr (data_pre data_post : Dataset) : Except Err Grid := do
  let nir_pre ← getBand data_pre bandNir
  let swir_pre ← getBand data_pre bandSwir22
  let nir_post ← getBand data_post bandNir
  let swir_post ← getBand data_post bandSwir22
  Except.ok (fun i j =>
    fsub (ndGrid nir_pre swir_pre i j) (ndGrid nir_post swir_post i j))

/-- Modelled from the spec: the repository defines its IBI formula only in
tutorial notebooks, not under `src/`; the specification (section 4.1)
documents it as `IBI = (NDBI - (NDVI + NDWI)) / (NDBI + (NDVI + NDWI))` with
`NDVI = (nir - red)/(nir + red)`, `NDWI = (green - swir22)/(green + swir22)`
and an internal `NDBI = (swir16 - nir)/(swir16 + nir)` that uses `swir16`. -/
def return_ibi (data : Dataset) : Except Err Grid := do
  let red ← getBand data bandRed
  let green ← getBand data bandGreen
  let nir ← getBand data bandNir
  let swir16 ← getBand data bandSwir16
  let swir22 ← getBand data bandSwir22
  let ndvi := ndGrid nir red
  let ndwi := ndGrid green swir22
  let ndbi := ndGrid swir16 nir
  Except.ok (fun i j =>
    fdiv (fsub (ndbi i j) (fadd (ndvi i j) (ndwi i j)))
         (fadd (ndbi i j) (fadd (ndvi i j) (ndwi i j))))

/-- Modelled from the spec: polygons live in the external geometry library
(shapely, an out-of-scope collaborator per section 1); the claims only need
axis-aligned rectangular footprints and the empty polygon, so a polygon is
an optional box (`none` is the empty polygon). -/
structure Box where
  x0 : ℚ
  y0 : ℚ
  x1 : ℚ
  y1 : ℚ
deriving DecidableEq, Repr

/-- A polygon: a rectangle, or the empty polygon. -/
abbrev GeoPoly := Option Box

/-- Modelled from the spec (section 4.2): geometric intersection of two
polygons, returning the empty polygon when they are disjoint. -/
def polyInter (p q : GeoPoly) : GeoPoly :=
  match p, q with
  | some a, some b =>
      let nx0 := max a.x0 b.x0
      let ny0 := max a.y0 b.y0
      let nx1 := min a.x1 b.x1
      let ny1 := min a.y1 b.y1
      if nx0 ≤ nx1 ∧ ny0 ≤ ny1 then some ⟨nx0, ny0, nx1, ny1⟩ else none
  | _, _ => none

/-- Bounding extent of a polygon, `Polygon.bounds` in shapely: the corner
tuple for a rectangle, and the degenerate NaN bounds (`none`) for the empty
polygon (shapely 2 returns `(nan, nan, nan, nan)` there). -/
def polyBounds : GeoPoly → Option (ℚ × ℚ × ℚ × ℚ)
  | some b => some (b.x0, b.y0, b.x1, b.y1)
  | none => none

/-- The degenerate bounds of an empty polygon. -/
abbrev Bounds := Option (ℚ × ℚ × ℚ × ℚ)

/-- A catalog item, reduced to the one facet the core reads: its footprint
polygon (`Polygon(*item.geometry['coordinates'])`). -/
structure Item where
  footprint : GeoPoly
deriving DecidableEq, Repr

/-- `utils.find_intersection_poly`: intersection of the area-of-interest
bounding polygon with the item footprint, in that argument order. -/
def find_intersection_poly (item : Item) (bbox_poly : GeoPoly) : GeoPoly :=
  polyInter bbox_poly item.footprint

/-- A raster backend (`odc.stac.load` followed by `.isel(time=0)`, an
external collaborator): takes the requested band list and a bounding extent
and yields a band bundle, or an upstream failure. -/
abbrev Loader := List String → Bounds → Except Err Dataset

/-- `utils.load_data_from_item`: derives the clip polygon for the item,
takes its bounds, and delegates the fetch to the backend.  No emptiness
check is performed on the intersection; the bounds of an empty clip are
passed to the backend as they are. -/
def load_data_from_item (loader : Loader) (item : Item) (bands : List String)
    (bbox_poly : GeoPoly) : Except Err Dataset :=
  let item_bbox := find_intersection_poly item bbox_poly
  loader bands (polyBounds item_bbox)

/-- `shapely.geometry.box(*bbox)`: the rectangle spanned by
`(minX, minY, maxX, maxY)`. -/
def boxPoly (bbox : ℚ × ℚ × ℚ × ℚ) : GeoPoly :=
  some ⟨bbox.1, bbox.2.1, bbox.2.2.1, bbox.2.2.2⟩

/-- The loop body of `utils.calculate_spectral_index_over_items`: load the
item, apply the injected index function, cons onto the results of the
remaining items; any failure aborts the whole run (Python exception
semantics), discarding the partial list. -/
def pipelineLoop (loader : Loader) (bands : List String) (bbox_poly : GeoPoly)
    (spectral_index_func : Dataset → Except Err Grid) :
    List Item → Except Err (List Grid)
  | [] => Except.ok []
  | item :: rest => do
      let data ← load_data_from_item loader item bands bbox_poly
      let s ← spectral_index_func data
      let tail ← pipelineLoop loader bands bbox_poly spectral_index_func rest
      Except.ok (s :: tail)

/-- `utils.calculate_spectral_index_over_items`: builds the bounding polygon
from the bbox corners and runs the strictly sequential per-item loop. -/
def calculate_spectral_index_over_items (loader : Loader) (items : List Item)
    (bands : List String) (bbox : ℚ × ℚ × ℚ × ℚ)
    (spectral_index_func : Dataset → Except Err Grid) :
    Except Err (List Grid) :=
  let bbox_poly := boxPoly bbox
  pipelineLoop loader bands bbox_poly spectral_index_func items

/-- A labelled 2-D raster (`xr.DataArray`): y coordinate labels, x
coordinate labels, and a row-major grid of cells (row `i` belongs to
coordinate `ys[i]`, column `j` to `xs[j]`). -/
structure DataArray where
  ys : List ℚ
  xs : List ℚ
  vals : List (List FVal)
deriving DecidableEq, Repr

/-- Index of a coordinate label in a coordinate list. -/
def idxOfQ (y : ℚ) : List ℚ → Option ℕ
  | [] => none
  | a :: as => if a = y then some 0 else (idxOfQ y as).map (fun n => n + 1)

/-- Cell of a labelled raster at given coordinate labels; cells at labels
the raster does not carry are NaN (xarray reindex fill value). -/
def lookupCell (r : DataArray) (y x : ℚ) : FVal :=
  match idxOfQ y r.ys, idxOfQ x r.xs with
  | some iy, some ix => (r.vals.getD iy []).getD ix FVal.nan
  | _, _ => FVal.nan

/-- Insert a rational into a sorted list, keeping it sorted. -/
def insertSortedQ (x : ℚ) : List ℚ → List ℚ
  | [] => [x]
  | y :: ys => if x ≤ y then x :: y :: ys else y :: insertSortedQ x ys

/-- Insertion sort on rationals. -/
def sortQ (l : List ℚ) : List ℚ := l.foldr insertSortedQ []

/-- Sorted union of several coordinate lists, as pandas produces for the
outer join of monotonic indexes: all labels, deduplicated from the left and
sorted ascending. -/
def sortedUnion (cs : List (List ℚ)) : List ℚ :=
  sortQ cs.flatten.dedup

/-- Coordinate alignment performed by `xr.concat` with its default
`join="outer"`: identical indexes are kept as they are (no reindexing);
differing indexes are replaced by their union (sorted, for the monotonic
indexes this model covers). -/
def alignCoords (cs : List (List ℚ)) : List ℚ :=
  match cs with
  | [] => []
  | c :: rest => if rest.all (fun d => decide (d = c)) then c else sortedUnion cs

/-- Comparison used to sort non-NaN float values: `-inf` below all finite
values, `+inf` above. -/
def fle : FVal → FVal → Bool
  | FVal.nan, _ => false
  | _, FVal.nan => false
  | FVal.ninf, _ => true
  | _, FVal.ninf => false
  | _, FVal.pinf => true
  | FVal.pinf, _ => false
  | FVal.fin a, FVal.fin b => decide (a ≤ b)

/-- Insert a float value into a sorted list, keeping it sorted. -/
def finsertSorted (x : FVal) : List FVal → List FVal
  | [] => [x]
  | y :: ys => if fle x y then x :: y :: ys else y :: finsertSorted x ys

/-- Insertion sort on float values. -/
def fsort (l : List FVal) : List FVal := l.foldr finsertSorted []

/-- numpy's `nanmedian`, which xarray's `median(dim, skipna=True)` reduces
to: drop the NaN entries only (infinities stay), sort what remains, and
take the middle element, or the mean of the two middle elements when the
count is even; all-NaN input yields NaN. -/
def nanmedian (l : List FVal) : FVal :=
  let v := l.filter (fun x => ! isNaN x)
  if v.isEmpty then FVal.nan
  else
    let s := fsort v
    let n := s.length
    if n % 2 = 1 then s.getD (n / 2) FVal.nan
    else favg (s.getD (n / 2 - 1) FVal.nan) (s.getD (n / 2) FVal.nan)

/-- A per-cell median following the specification's words (for comparison
with the implementation): exclude every non-finite or missing observation,
take the median of the finite ones, and yield a missing cell only when no
finite observation remains. -/
def medianExcludingNonfinite (l : List FVal) : FVal :=
  let v := l.filter (fun x => ! isNonfinite x)
  if v.isEmpty then FVal.nan
  else
    let s := fsort v
    let n := s.length
    if n % 2 = 1 then s.getD (n / 2) FVal.nan
    else favg (s.getD (n / 2 - 1) FVal.nan) (s.getD (n / 2) FVal.nan)

/-- `utils.calculate_median_index`: `xr.concat(rasters, dim="image")`
followed by `.median(dim="image")`.  Concatenating an empty list raises
(`ValueError`); otherwise the coordinate axes are aligned with an outer
join (NaN-filling cells a raster does not cover) and each cell of the
result is the NaN-skipping median over the image axis. -/
def calculate_median_index (spectral_index_values : List DataArray) :
    Except Err DataArray :=
  if spectral_index_values.isEmpty then Except.error Err.emptyInput
  else
    let ys := alignCoords (spectral_index_values.map (fun r => r.ys))
    let xs := alignCoords (spectral_index_values.map (fun r => r.xs))
    let vals := (List.range ys.length).map (fun iy =>
      (List.range xs.length).map (fun ix =>
        nanmedian (spectral_index_values.map (fun r =>
          lookupCell r (ys.getD iy 0) (xs.getD ix 0)))))
    Except.ok ⟨ys, xs, vals⟩

/-- `np.flipud`: reverse the row order of a plain 2-D grid. -/
def flipud (g : List (List FVal)) : List (List FVal) := g.reverse

/-- The plain numeric grid of a labelled raster (`.to_numpy()`). -/
def DataArray.toNumpy (r : DataArray) : List (List FVal) := r.vals

/-- `utils.xr_spectral_index_data_to_np`: convert to a plain grid and flip
it vertically. -/
def xr_spectral_index_data_to_np (xr_data : DataArray) : List (List FVal) :=
  flipud xr_data.toNumpy

/-! Helper lemmas about the float model. -/

theorem fneg_fneg (x : FVal) : fneg (fneg x) = x := by
  cases x <;> simp [fneg]

theorem fadd_comm (x y : FVal) : fadd x y = fadd y x := by
  cases x <;> cases y <;> simp [fadd, add_comm]

theorem fneg_fadd (x y : FVal) : fneg (fadd x y) = fadd (fneg x) (fneg y) := by
  cases x <;> cases y <;> simp [fadd, fneg, neg_add, add_comm]

theorem fsub_swap (x y : FVal) : fsub x y = fneg (fsub y x) := by
  rw [fsub, fsub, fneg_fadd, fneg_fneg, fadd_comm]

theorem fneg_fdiv (x y : FVal) : fdiv (fneg x) y = fneg (fdiv x y) := by
  cases x <;> cases y <;> simp only [fdiv, fneg, neg_zero]
  case fin.fin a b =>
    by_cases hb : b = 0
    · subst hb
      by_cases ha : a = 0
      · simp [ha, fneg]
      · rcases lt_trichotomy a 0 with h | h | h
        · have h1 : ¬ 0 < a := by linarith
          have h2 : 0 < -a := by linarith
          simp [ha, h1, h2, fneg, neg_eq_zero]
        · exact absurd h ha
        · have h2 : ¬ 0 < -a := by linarith
          simp [ha, h, h2, fneg, neg_eq_zero]
    · simp [hb, fneg, neg_div]
  case pinf.fin b =>
    by_cases h : b < 0 <;> simp [h, fneg]
  case ninf.fin b =>
    by_cases h : b < 0 <;> simp [h, fneg]

theorem normdiff_swap (x y : FVal) :
    fdiv (fsub x y) (fadd x y) = fneg (fdiv (fsub y x) (fadd y x)) := by
  rw [fsub_swap x y, fadd_comm x y, fneg_fdiv]

/-- C4: for every pair of band bundles pre and post each containing nir and
swir22, `return_dnbr pre post` equals `return_nbr pre` minus
`return_nbr post` elementwise, exactly, with no additional normalization
applied to the difference. -/
theorem c4_dnbr_is_nbr_difference (pre post : Dataset) (N1 S1 N2 S2 : Grid)
    (hN1 : pre.lookup bandNir = some N1) (hS1 : pre.lookup bandSwir22 = some S1)
    (hN2 : post.lookup bandNir = some N2) (hS2 : post.lookup bandSwir22 = some S2) :
    ∃ g1 g2 d, return_nbr pre = Except.ok g1 ∧ return_nbr post = Except.ok g2 ∧
      return_dnbr pre post = Except.ok d ∧
      ∀ i j, d i j = fsub (g1 i j) (g2 i j) := by
  refine ⟨ndGrid N1 S1, ndGrid N2 S2, _, ?_, ?_, ?_, fun i j => rfl⟩
  · simp [bind, Except.bind, return_nbr, getBand, hN1, hS1]
  · simp [bind, Except.bind, return_nbr, getBand, hN2, hS2]
  · simp [bind, Except.bind, return_dnbr, getBand, hN1, hS1, hN2, hS2]

/-- C10: for every band bundle containing the nir and swir22 bands,
`return_ndbi data` equals the elementwise negation of `return_nbr data`,
since both are normalized differences over the same two bands with the
operands swapped. -/
theorem c10_ndbi_neg_nbr (data : Dataset) (N S : Grid)
    (hN : data.lookup bandNir = some N) (hS : data.lookup bandSwir22 = some S) :
    ∃ g1 g2, return_ndbi data = Except.ok g1 ∧ return_nbr data = Except.ok g2 ∧
      ∀ i j, g1 i j = fneg (g2 i j) := by
  refine ⟨ndGrid S N, ndGrid N S, ?_, ?_, fun i j => ?_⟩
  · simp [bind, Except.bind, return_ndbi, getBand, hN, hS]
  · simp [bind, Except.bind, return_nbr, getBand, hN, hS]
  · simpa [ndGrid] using normdiff_swap (S i j) (N i j)

/-- C5: for each normalized-difference formula, for every band bundle
containing that formula's required bands (the other bands are
unconstrained, possibly absent), at every cell where its two designated
bands are both zero the formula returns successfully (the division branch
is total, no error is raised) and its value at that cell is non-finite. -/
theorem c5_div_zero_nonfinite (i j : ℕ) :
    (∀ (data : Dataset) (N R : Grid), data.lookup bandNir = some N →
      data.lookup bandRed = some R →
      N i j = FVal.fin 0 → R i j = FVal.fin 0 →
      ∃ g, return_ndvi data = Except.ok g ∧ isNonfinite (g i j) = true) ∧
    (∀ (data : Dataset) (S N : Grid), data.lookup bandSwir22 = some S →
      data.lookup bandNir = some N →
      S i j = FVal.fin 0 → N i j = FVal.fin 0 →
      ∃ g, return_ndbi data = Except.ok g ∧ isNonfinite (g i j) = true) ∧
    (∀ (data : Dataset) (G S : Grid), data.lookup bandGreen = some G →
      data.lookup bandSwir22 = some S →
      G i j = FVal.fin 0 → S i j = FVal.fin 0 →
      ∃ g, return_ndwi data = Except.ok g ∧ isNonfinite (g i j) = true) ∧
    (∀ (data : Dataset) (S G : Grid), data.lookup bandSwir22 = some S →
      data.lookup bandGreen = some G →
      S i j = FVal.fin 0 → G i j = FVal.fin 0 →
      ∃ g, return_nbai data = Except.ok g ∧ isNonfinite (g i j) = true) ∧
    (∀ (data : Dataset) (N S : Grid), data.lookup bandNir = some N →
      data.lookup bandSwir22 = some S →
      N i j = FVal.fin 0 → S i j = FVal.fin 0 →
      ∃ g, return_nbr data = Except.ok g ∧ isNonfinite (g i j) = true) := by
  refine ⟨fun data N R hN hR hNz hRz => ⟨ndGrid N R, ?_, ?_⟩,
          fun data S N hS hN hSz hNz => ⟨ndGrid S N, ?_, ?_⟩,
          fun data G S hG hS hGz hSz => ⟨ndGrid G S, ?_, ?_⟩,
          fun data S G hS hG hSz hGz => ⟨ndGrid S G, ?_, ?_⟩,
          fun data N S hN hS hNz hSz => ⟨ndGrid N S, ?_, ?_⟩⟩ <;>
    simp [bind, Except.bind, return_ndvi, return_ndbi, return_ndwi,
      return_nbai, return_nbr, getBand, ndGrid, *,
      fsub, fneg, fadd, fdiv, isNonfinite]

/-- C8: for every band bundle from which a band required by an index formula
is absent, the formula fails with a MissingBandError (the `KeyError` of the
band lookup) and no derived raster is produced. -/
theorem c8_missing_band_raises (data : Dataset) :
    ((data.lookup bandRed = none ∨ data.lookup bandNir = none) →
      ∃ b, return_ndvi data = Except.error (Err.missingBand b)) ∧
    ((data.lookup bandSwir22 = none ∨ data.lookup bandNir = none) →
      ∃ b, return_ndbi data = Except.error (Err.missingBand b)) ∧
    ((data.lookup bandGreen = none ∨ data.lookup bandSwir22 = none) →
      ∃ b, return_ndwi data = Except.error (Err.missingBand b)) ∧
    ((data.lookup bandSwir22 = none ∨ data.lookup bandGreen = none) →
      ∃ b, return_nbai data = Except.error (Err.missingBand b)) ∧
    ((data.lookup bandNir = none ∨ data.lookup bandSwir22 = none) →
      ∃ b, return_nbr data = Except.error (Err.missingBand b)) := by
  refine ⟨fun h => ?_, fun h => ?_, fun h => ?_, fun h => ?_, fun h => ?_⟩
  · rcases h with h | h
    · exact ⟨bandRed, by simp [bind, Except.bind, return_ndvi, getBand, h]⟩
    · cases hr : data.lookup bandRed with
      | none => exact ⟨bandRed, by simp [bind, Except.bind, return_ndvi, getBand, hr]⟩
      | some g => exact ⟨bandNir, by simp [bind, Except.bind, return_ndvi, getBand, hr, h]⟩
  · rcases h with h | h
    · exact ⟨bandSwir22, by simp [bind, Except.bind, return_ndbi, getBand, h]⟩
    · cases hr : data.lookup bandSwir22 with
      | none => exact ⟨bandSwir22, by simp [bind, Except.bind, return_ndbi, getBand, hr]⟩
      | some g => exact ⟨bandNir, by simp [bind, Except.bind, return_ndbi, getBand, hr, h]⟩
  · rcases h with h | h
    · exact ⟨bandGreen, by simp [bind, Except.bind, return_ndwi, getBand, h]⟩
    · cases hr : data.lookup bandGreen with
      | none => exact ⟨bandGreen, by simp [bind, Except.bind, return_ndwi, getBand, hr]⟩
      | some g => exact ⟨bandSwir22, by simp [bind, Except.bind, return_ndwi, getBand, hr, h]⟩
  · rcases h with h | h
    · exact ⟨bandSwir22, by simp [bind, Except.bind, return_nbai, getBand, h]⟩
    · cases hr : data.lookup bandSwir22 with
      | none => exact ⟨bandSwir22, by simp [bind, Except.bind, return_nbai, getBand, hr]⟩
      | some g => exact ⟨bandGreen, by simp [bind, Except.bind, return_nbai, getBand, hr, h]⟩
  · rcases h with h | h
    · exact ⟨bandNir, by simp [bind, Except.bind, return_nbr, getBand, h]⟩
    · cases hr : data.lookup bandNir with
      | none => exact ⟨bandNir, by simp [bind, Except.bind, return_nbr, getBand, hr]⟩
      | some g => exact ⟨bandSwir22, by simp [bind, Except.bind, return_nbr, getBand, hr, h]⟩

/-- C2: for every band bundle containing red, green, nir, swir16 and swir22,
the IBI formula returns `(NDBI - (NDVI + NDWI)) / (NDBI + (NDVI + NDWI))`
elementwise, where `NDVI = (nir - red)/(nir + red)`,
`NDWI = (green - swir22)/(green + swir22)`, and the internal NDBI term uses
swir16: `NDBI = (swir16 - nir)/(swir16 + nir)`. -/
theorem c2_ibi_formula (data : Dataset) (R G N S16 S22 : Grid)
    (hR : data.lookup bandRed = some R) (hG : data.lookup bandGreen = some G)
    (hN : data.lookup bandNir = some N)
    (hS16 : data.lookup bandSwir16 = some S16)
    (hS22 : data.lookup bandSwir22 = some S22) :
    ∃ g, return_ibi data = Except.ok g ∧ ∀ i j,
      g i j =
        fdiv
          (fsub (fdiv (fsub (S16 i j) (N i j)) (fadd (S16 i j) (N i j)))
            (fadd (fdiv (fsub (N i j) (R i j)) (fadd (N i j) (R i j)))
              (fdiv (fsub (G i j) (S22 i j)) (fadd (G i j) (S22 i j)))))
          (fadd (fdiv (fsub (S16 i j) (N i j)) (fadd (S16 i j) (N i j)))
            (fadd (fdiv (fsub (N i j) (R i j)) (fadd (N i j) (R i j)))
              (fdiv (fsub (G i j) (S22 i j)) (fadd (G i j) (S22 i j))))) := by
  refine ⟨fun i j =>
    fdiv (fsub (ndGrid S16 N i j) (fadd (ndGrid N R i j) (ndGrid G S22 i j)))
      (fadd (ndGrid S16 N i j) (fadd (ndGrid N R i j) (ndGrid G S22 i j))),
    ?_, fun i j => rfl⟩
  simp [bind, Except.bind, return_ibi, getBand, hR, hG, hN, hS16, hS22]

/-- A constant test grid. -/
def gridConst (v : FVal) : Grid := fun _ _ => v

/-- A concrete pre-fire bundle for witnesses. -/
def dsPre : Dataset :=
  [(bandNir, gridConst (FVal.fin 4)), (bandSwir22, gridConst (FVal.fin 1))]

/-- A concrete post-fire bundle for witnesses. -/
def dsPost : Dataset :=
  [(bandNir, gridConst (FVal.fin 2)), (bandSwir22, gridConst (FVal.fin 1))]

/-- A concrete bundle whose bands are all zero, for the division-by-zero
witness. -/
def dsZero : Dataset :=
  [(bandRed, gridConst (FVal.fin 0)), (bandGreen, gridConst (FVal.fin 0)),
   (bandNir, gridConst (FVal.fin 0)), (bandSwir22, gridConst (FVal.fin 0))]

/-- A concrete bundle containing all five IBI bands. -/
def dsFive : Dataset :=
  [(bandRed, gridConst (FVal.fin 1)), (bandGreen, gridConst (FVal.fin 2)),
   (bandNir, gridConst (FVal.fin 3)), (bandSwir16, gridConst (FVal.fin 4)),
   (bandSwir22, gridConst (FVal.fin 5))]

/-- Witness for C4 on concrete pre and post bundles. -/
theorem c4_witness :
    ∃ g1 g2 d, return_nbr dsPre = Except.ok g1 ∧
      return_nbr dsPost = Except.ok g2 ∧
      return_dnbr dsPre dsPost = Except.ok d ∧
      ∀ i j, d i j = fsub (g1 i j) (g2 i j) :=
  c4_dnbr_is_nbr_difference dsPre dsPost (gridConst (FVal.fin 4))
    (gridConst (FVal.fin 1)) (gridConst (FVal.fin 2)) (gridConst (FVal.fin 1))
    rfl rfl rfl rfl

/-- Witness for C10 on a concrete bundle. -/
theorem c10_witness :
    ∃ g1 g2, return_ndbi dsPre = Except.ok g1 ∧
      return_nbr dsPre = Except.ok g2 ∧ ∀ i j, g1 i j = fneg (g2 i j) :=
  c10_ndbi_neg_nbr dsPre (gridConst (FVal.fin 4)) (gridConst (FVal.fin 1))
    rfl rfl

/-- A bundle where only the NDVI bands are zero: nir = red = 0 at every
cell while swir22 is nonzero (and green, swir16 are absent). -/
def dsNdviZero : Dataset :=
  [(bandRed, gridConst (FVal.fin 0)), (bandNir, gridConst (FVal.fin 0)),
   (bandSwir22, gridConst (FVal.fin 7))]

/-- Witness for C5 at cell (0, 0): NDVI on a bundle where only its two
designated bands are zero (swir22 nonzero, green and swir16 absent), and
the other four formulas on an all-zero bundle. -/
theorem c5_witness :
    (∃ g, return_ndvi dsNdviZero = Except.ok g ∧ isNonfinite (g 0 0) = true) ∧
    (∃ g, return_ndbi dsZero = Except.ok g ∧ isNonfinite (g 0 0) = true) ∧
    (∃ g, return_ndwi dsZero = Except.ok g ∧ isNonfinite (g 0 0) = true) ∧
    (∃ g, return_nbai dsZero = Except.ok g ∧ isNonfinite (g 0 0) = true) ∧
    (∃ g, return_nbr dsZero = Except.ok g ∧ isNonfinite (g 0 0) = true) :=
  ⟨(c5_div_zero_nonfinite 0 0).1 dsNdviZero (gridConst (FVal.fin 0))
      (gridConst (FVal.fin 0)) rfl rfl rfl rfl,
   (c5_div_zero_nonfinite 0 0).2.1 dsZero (gridConst (FVal.fin 0))
      (gridConst (FVal.fin 0)) rfl rfl rfl rfl,
   (c5_div_zero_nonfinite 0 0).2.2.1 dsZero (gridConst (FVal.fin 0))
      (gridConst (FVal.fin 0)) rfl rfl rfl rfl,
   (c5_div_zero_nonfinite 0 0).2.2.2.1 dsZero (gridConst (FVal.fin 0))
      (gridConst (FVal.fin 0)) rfl rfl rfl rfl,
   (c5_div_zero_nonfinite 0 0).2.2.2.2 dsZero (gridConst (FVal.fin 0))
      (gridConst (FVal.fin 0)) rfl rfl rfl rfl⟩

/-- Witness for C8 on the empty bundle: every formula reports a missing
band. -/
theorem c8_witness :
    (∃ b, return_ndvi [] = Except.error (Err.missingBand b)) ∧
    (∃ b, return_ndbi [] = Except.error (Err.missingBand b)) ∧
    (∃ b, return_ndwi [] = Except.error (Err.missingBand b)) ∧
    (∃ b, return_nbai [] = Except.error (Err.missingBand b)) ∧
    (∃ b, return_nbr [] = Except.error (Err.missingBand b)) :=
  ⟨(c8_missing_band_raises []).1 (Or.inl rfl),
   (c8_missing_band_raises []).2.1 (Or.inl rfl),
   (c8_missing_band_raises []).2.2.1 (Or.inl rfl),
   (c8_missing_band_raises []).2.2.2.1 (Or.inl rfl),
   (c8_missing_band_raises []).2.2.2.2 (Or.inl rfl)⟩

/-- Witness for C2 on a concrete five-band bundle. -/
theorem c2_witness :
    ∃ g, return_ibi dsFive = Except.ok g ∧ ∀ i j,
      g i j =
        fdiv
          (fsub
            (fdiv (fsub (gridConst (FVal.fin 4) i j) (gridConst (FVal.fin 3) i j))
              (fadd (gridConst (FVal.fin 4) i j) (gridConst (FVal.fin 3) i j)))
            (fadd
              (fdiv (fsub (gridConst (FVal.fin 3) i j) (gridConst (FVal.fin 1) i j))
                (fadd (gridConst (FVal.fin 3) i j) (gridConst (FVal.fin 1) i j)))
              (fdiv (fsub (gridConst (FVal.fin 2) i j) (gridConst (FVal.fin 5) i j))
                (fadd (gridConst (FVal.fin 2) i j) (gridConst (FVal.fin 5) i j)))))
          (fadd
            (fdiv (fsub (gridConst (FVal.fin 4) i j) (gridConst (FVal.fin 3) i j))
              (fadd (gridConst (FVal.fin 4) i j) (gridConst (FVal.fin 3) i j)))
            (fadd
              (fdiv (fsub (gridConst (FVal.fin 3) i j) (gridConst (FVal.fin 1) i j))
                (fadd (gridConst (FVal.fin 3) i j) (gridConst (FVal.fin 1) i j)))
              (fdiv (fsub (gridConst (FVal.fin 2) i j) (gridConst (FVal.fin 5) i j))
                (fadd (gridConst (FVal.fin 2) i j) (gridConst (FVal.fin 5) i j))))) :=
  c2_ibi_formula dsFive (gridConst (FVal.fin 1)) (gridConst (FVal.fin 2))
    (gridConst (FVal.fin 3)) (gridConst (FVal.fin 4)) (gridConst (FVal.fin 5))
    rfl rfl rfl rfl rfl

/-- C3: for every ordered list of catalog items whose per-item load and
formula application succeed, the batch pipeline returns exactly the list of
per-item results, in input order, with the same length; output index `i`
is the formula applied to the bundle loaded for item `i` (encoded by
`List.map` over the input list). -/
theorem c3_pipeline_order (loader : Loader) (items : List Item)
    (bands : List String) (bbox : ℚ × ℚ × ℚ × ℚ)
    (f : Dataset → Except Err Grid) (g : Item → Grid)
    (h : ∀ it ∈ items,
      (load_data_from_item loader it bands (boxPoly bbox)).bind f =
        Except.ok (g it)) :
    calculate_spectral_index_over_items loader items bands bbox f =
      Except.ok (items.map g) ∧
    (items.map g).length = items.length := by
  refine ⟨?_, items.length_map g⟩
  induction items with
  | nil => rfl
  | cons it rest ih =>
    have h1 := h it (by simp)
    have hrest : ∀ x ∈ rest,
        (load_data_from_item loader x bands (boxPoly bbox)).bind f =
          Except.ok (g x) :=
      fun x hx => h x (by simp [hx])
    cases hl : load_data_from_item loader it bands (boxPoly bbox) with
    | error e => rw [hl] at h1; simp [Except.bind] at h1
    | ok d =>
      rw [hl] at h1
      simp only [Except.bind] at h1
      have htail := ih hrest
      simp only [calculate_spectral_index_over_items] at htail ⊢
      simp [pipelineLoop, bind, Except.bind, hl, h1, htail]

/-- A backend stub that succeeds on every request, for witnesses. -/
def loaderOk : Loader := fun _ _ => Except.ok dsPre

/-- Two concrete catalog items for the pipeline witness. -/
def itemA : Item := ⟨some ⟨0, 0, 10, 10⟩⟩

/-- A second concrete catalog item. -/
def itemB : Item := ⟨some ⟨1, 1, 5, 5⟩⟩

/-- Witness for C3: a two-item run with an always-succeeding backend and
the NBR formula yields the two per-item rasters in order. -/
theorem c3_witness :
    calculate_spectral_index_over_items loaderOk [itemA, itemB]
      [bandNir, bandSwir22] (0, 0, 10, 10) return_nbr =
      Except.ok ([itemA, itemB].map (fun _ =>
        ndGrid (gridConst (FVal.fin 4)) (gridConst (FVal.fin 1)))) ∧
    ([itemA, itemB].map (fun _ =>
        ndGrid (gridConst (FVal.fin 4)) (gridConst (FVal.fin 1)))).length =
      [itemA, itemB].length :=
  c3_pipeline_order loaderOk [itemA, itemB] [bandNir, bandSwir22]
    (0, 0, 10, 10) return_nbr
    (fun _ => ndGrid (gridConst (FVal.fin 4)) (gridConst (FVal.fin 1)))
    (fun _ _ => rfl)

/-- C7 (amended): for a catalog item disjoint from the area of interest the
scene loader raises nothing itself; it takes the degenerate bounds of the
empty intersection polygon and passes them to the external raster backend,
returning whatever the backend returns for that request. -/
theorem c7_disjoint_forwards_to_backend (loader : Loader) (item : Item)
    (bands : List String) (bbox_poly : GeoPoly)
    (h : find_intersection_poly item bbox_poly = none) :
    load_data_from_item loader item bands bbox_poly = loader bands none := by
  simp [load_data_from_item, h, polyBounds]

/-- A footprint far away from `aoiBox`, for the disjoint-scene theorems. -/
def itemFar : Item := ⟨some ⟨100, 100, 101, 101⟩⟩

/-- A concrete area-of-interest polygon. -/
def aoiBox : GeoPoly := some ⟨0, 0, 10, 10⟩

/-- Counterexample to C7 as stated: for a footprint disjoint from the AOI
the intersection is empty, yet `load_data_from_item` does not raise an
EmptyIntersectionError — with a backend that accepts the degenerate bounds
it proceeds to fetch and returns the backend's bundle. -/
theorem c7_counterexample :
    find_intersection_poly itemFar aoiBox = none ∧
    load_data_from_item loaderOk itemFar [bandNir] aoiBox =
      Except.ok dsPre := by
  exact ⟨rfl, rfl⟩

/-- Witness for C7 (amended) at a concrete disjoint item and AOI. -/
theorem c7_witness :
    load_data_from_item loaderOk itemFar [bandNir] aoiBox =
      loaderOk [bandNir] none :=
  c7_disjoint_forwards_to_backend loaderOk itemFar [bandNir] aoiBox rfl

/-- C9: the vertical flip performed by the orientation adapter is an
involution — flipping the adapter's output once more recovers the raster's
plain grid, flipping any plain grid twice is the identity, and row 0 of a
flipped grid is the last (geographically southernmost, for north-up input)
row of the input. -/
theorem c9_flip_involution :
    (∀ r : DataArray, flipud (xr_spectral_index_data_to_np r) = r.toNumpy) ∧
    (∀ g : List (List FVal), flipud (flipud g) = g) ∧
    (∀ g : List (List FVal), (flipud g).head? = g.getLast?) := by
  refine ⟨fun r => ?_, fun g => ?_, fun g => ?_⟩
  · simp [xr_spectral_index_data_to_np, flipud]
  · simp [flipud]
  · simp [flipud]

/-- Positional cell access into a labelled raster's value grid (out-of-range
accesses default to NaN). -/
def cellAt (r : DataArray) (iy ix : ℕ) : FVal :=
  (r.vals.getD iy []).getD ix FVal.nan

theorem mem_insertSortedQ (a x : ℚ) (l : List ℚ) :
    a ∈ insertSortedQ x l ↔ a = x ∨ a ∈ l := by
  induction l with
  | nil => simp [insertSortedQ]
  | cons y ys ih =>
    simp only [insertSortedQ]
    split
    · simp [List.mem_cons]
    · simp only [List.mem_cons, ih]
      tauto

theorem mem_sortQ (a : ℚ) (l : List ℚ) : a ∈ sortQ l ↔ a ∈ l := by
  induction l with
  | nil => simp [sortQ]
  | cons y ys ih =>
    show a ∈ insertSortedQ y (sortQ ys) ↔ _
    rw [mem_insertSortedQ, ih]
    simp [List.mem_cons]

theorem mem_sortedUnion (cs : List (List ℚ)) (c : List ℚ) (y : ℚ)
    (hc : c ∈ cs) (hy : y ∈ c) : y ∈ sortedUnion cs := by
  unfold sortedUnion
  rw [mem_sortQ, List.mem_dedup, List.mem_flatten]
  exact ⟨c, hc, hy⟩

theorem mem_alignCoords (cs : List (List ℚ)) (c : List ℚ) (y : ℚ)
    (hc : c ∈ cs) (hy : y ∈ c) : y ∈ alignCoords cs := by
  cases cs with
  | nil => cases hc
  | cons c0 rest =>
    simp only [alignCoords]
    split
    · next hall =>
      rcases List.mem_cons.mp hc with rfl | hmem
      · exact hy
      · have := List.all_eq_true.mp hall c hmem
        have hceq : c = c0 := by simpa using this
        exact hceq ▸ hy
    · exact mem_sortedUnion _ c y hc hy

theorem alignCoords_const (cs : List (List ℚ)) (Y : List ℚ)
    (hne : cs ≠ []) (hall : ∀ c ∈ cs, c = Y) : alignCoords cs = Y := by
  cases cs with
  | nil => exact absurd rfl hne
  | cons c0 rest =>
    have hc0 : c0 = Y := hall c0 (by simp)
    have hrest : rest.all (fun d => decide (d = c0)) = true := by
      rw [List.all_eq_true]
      intro d hd
      have := hall d (by simp [hd])
      simp [this, hc0]
    subst hc0
    simp [alignCoords, hrest]

theorem idxOfQ_getD (Y : List ℚ) (hN : Y.Nodup) (iy : ℕ)
    (hiy : iy < Y.length) : idxOfQ (Y.getD iy 0) Y = some iy := by
  induction Y generalizing iy with
  | nil => simp at hiy
  | cons a as ih =>
    rcases List.nodup_cons.mp hN with ⟨ha, has⟩
    cases iy with
    | zero => simp [idxOfQ]
    | succ n =>
      have hn : n < as.length := by simpa using hiy
      have hmem : as.getD n 0 ∈ as := by
        rw [List.getD_eq_getElem as 0 hn]
        exact List.getElem_mem hn
      have hane : ¬ a = as.getD n 0 := fun he => ha (he ▸ hmem)
      show idxOfQ ((a :: as).getD (n + 1) 0) (a :: as) = some (n + 1)
      simp only [idxOfQ, List.getD_cons_succ]
      rw [if_neg hane, ih has n hn]
      rfl

theorem lookupCell_cellAt (r : DataArray) (Y X : List ℚ)
    (hy : r.ys = Y) (hx : r.xs = X) (hNY : Y.Nodup) (hNX : X.Nodup)
    (iy ix : ℕ) (hiy : iy < Y.length) (hix : ix < X.length) :
    lookupCell r (Y.getD iy 0) (X.getD ix 0) = cellAt r iy ix := by
  unfold lookupCell
  rw [hy, hx, idxOfQ_getD Y hNY iy hiy, idxOfQ_getD X hNX ix hix]
  rfl

theorem rangeMap_getD {α : Type} (n : ℕ) (f : ℕ → α) (i : ℕ) (d : α)
    (h : i < n) : ((List.range n).map f).getD i d = f i := by
  rw [List.getD_eq_getElem?_getD, List.getElem?_map, List.getElem?_range h]
  rfl

theorem nanmedian_all_nan (l : List FVal) (h : ∀ v ∈ l, v = FVal.nan) :
    nanmedian l = FVal.nan := by
  have hf : l.filter (fun x => ! isNaN x) = [] := by
    rw [List.filter_eq_nil_iff]
    intro a ha
    simp [h a ha, isNaN]
  simp [nanmedian, hf]

/-- C1 (amended): for a non-empty list of per-scene rasters on one shared
coordinate grid, the composite reducer succeeds and each output cell is the
NaN-skipping median of the stacked observations at that cell: NaN/missing
observations are excluded (infinite observations participate), and a cell
where every observation is NaN is NaN. -/
theorem c1_median_identical_grid (rs : List DataArray) (Y X : List ℚ)
    (hne : rs ≠ [])
    (hgrid : ∀ r ∈ rs, r.ys = Y ∧ r.xs = X)
    (hY : Y.Nodup) (hX : X.Nodup) :
    ∃ out, calculate_median_index rs = Except.ok out ∧
      out.ys = Y ∧ out.xs = X ∧
      ∀ iy, iy < Y.length → ∀ ix, ix < X.length →
        cellAt out iy ix = nanmedian (rs.map (fun r => cellAt r iy ix)) ∧
        ((∀ r ∈ rs, cellAt r iy ix = FVal.nan) →
          cellAt out iy ix = FVal.nan) := by
  have hys : alignCoords (rs.map (fun r => r.ys)) = Y := by
    refine alignCoords_const _ Y (by simpa using hne) ?_
    intro c hc
    rcases List.mem_map.mp hc with ⟨r, hr, rfl⟩
    exact (hgrid r hr).1
  have hxs : alignCoords (rs.map (fun r => r.xs)) = X := by
    refine alignCoords_const _ X (by simpa using hne) ?_
    intro c hc
    rcases List.mem_map.mp hc with ⟨r, hr, rfl⟩
    exact (hgrid r hr).2
  have hnotempty : rs.isEmpty = false := by
    cases rs with
    | nil => exact absurd rfl hne
    | cons a as => rfl
  have hcalc : calculate_median_index rs = Except.ok
      ⟨Y, X, (List.range Y.length).map (fun iy =>
        (List.range X.length).map (fun ix =>
          nanmedian (rs.map (fun r =>
            lookupCell r (Y.getD iy 0) (X.getD ix 0)))))⟩ := by
    unfold calculate_median_index
    rw [hnotempty, hys, hxs]
    rfl
  refine ⟨_, hcalc, rfl, rfl, ?_⟩
  intro iy hiy ix hix
  have hcell : cellAt
      (⟨Y, X, (List.range Y.length).map (fun iy =>
        (List.range X.length).map (fun ix =>
          nanmedian (rs.map (fun r =>
            lookupCell r (Y.getD iy 0) (X.getD ix 0)))))⟩ : DataArray) iy ix =
      nanmedian (rs.map (fun r => cellAt r iy ix)) := by
    unfold cellAt
    show (((List.range Y.length).map _).getD iy []).getD ix FVal.nan = _
    rw [rangeMap_getD Y.length _ iy [] hiy, rangeMap_getD X.length _ ix FVal.nan hix]
    congr 1
    exact List.map_congr_left (fun r hr =>
      lookupCell_cellAt r Y X (hgrid r hr).1 (hgrid r hr).2 hY hX iy ix hiy hix)
  refine ⟨hcell, fun hall => ?_⟩
  rw [hcell]
  exact nanmedian_all_nan _ (by
    intro v hv
    rcases List.mem_map.mp hv with ⟨r, hr, rfl⟩
    exact hall r hr)

/-- One-cell raster holding 5, sharing its grid with `raInf`. -/
def raFive : DataArray := ⟨[0], [0], [[FVal.fin 5]]⟩

/-- One-cell raster holding plus infinity, on the same grid as `raFive`. -/
def raInf : DataArray := ⟨[0], [0], [[FVal.pinf]]⟩

/-- Counterexample to C1 as stated: on the identical 1x1 grid with
observations 5 and +inf, the claim's median (excluding every non-finite
observation) is 5, but the code's median (`np.nanmedian`, which excludes
only NaN) averages 5 with +inf and returns +inf. -/
theorem c1_counterexample :
    calculate_median_index [raFive, raInf] =
      Except.ok ⟨[0], [0], [[FVal.pinf]]⟩ ∧
    medianExcludingNonfinite [FVal.fin 5, FVal.pinf] = FVal.fin 5 ∧
    FVal.pinf ≠ FVal.fin 5 :=
  ⟨rfl, rfl, by decide⟩

/-- First raster of the specification's 2x2 median example. -/
def raEx1 : DataArray :=
  ⟨[0, 1], [0, 1], [[FVal.fin 1, FVal.fin 2], [FVal.fin 3, FVal.nan]]⟩

/-- Second raster of the specification's 2x2 median example. -/
def raEx2 : DataArray :=
  ⟨[0, 1], [0, 1], [[FVal.fin 5, FVal.fin 6], [FVal.nan, FVal.nan]]⟩

/-- Witness for C1 (amended) on the specification's 2x2 example, whose
result [[3, 4], [3, NaN]] is also pinned concretely. -/
theorem c1_witness :
    (∃ out, calculate_median_index [raEx1, raEx2] = Except.ok out ∧
      out.ys = [0, 1] ∧ out.xs = [0, 1] ∧
      ∀ iy, iy < ([0, 1] : List ℚ).length → ∀ ix, ix < ([0, 1] : List ℚ).length →
        cellAt out iy ix =
          nanmedian ([raEx1, raEx2].map (fun r => cellAt r iy ix)) ∧
        ((∀ r ∈ [raEx1, raEx2], cellAt r iy ix = FVal.nan) →
          cellAt out iy ix = FVal.nan)) ∧
    calculate_median_index [raEx1, raEx2] = Except.ok
      ⟨[0, 1], [0, 1], [[FVal.fin 3, FVal.fin 4], [FVal.fin 3, FVal.nan]]⟩ :=
  ⟨c1_median_identical_grid [raEx1, raEx2] [0, 1] [0, 1] (by decide)
    (by decide) (by decide) (by decide), by with_unfolding_all rfl⟩

/-- C6 (amended): the composite reducer never fails on a non-empty input,
mismatched grids included — instead of an AlignmentError, `xr.concat`
reconciles mismatched coordinate grids with an outer join, so the output
grid covers every input raster's coordinates (cells a raster lacks enter
its column as missing). -/
theorem c6_mismatched_grids_outer_join (rs : List DataArray)
    (hne : rs ≠ []) :
    ∃ out, calculate_median_index rs = Except.ok out ∧
      ∀ r ∈ rs, (∀ y ∈ r.ys, y ∈ out.ys) ∧ (∀ x ∈ r.xs, x ∈ out.xs) := by
  have hnotempty : rs.isEmpty = false := by
    cases rs with
    | nil => exact absurd rfl hne
    | cons a as => rfl
  have hcalc : calculate_median_index rs = Except.ok
      ⟨alignCoords (rs.map (fun r => r.ys)),
       alignCoords (rs.map (fun r => r.xs)),
       (List.range (alignCoords (rs.map (fun r => r.ys))).length).map (fun iy =>
        (List.range (alignCoords (rs.map (fun r => r.xs))).length).map (fun ix =>
          nanmedian (rs.map (fun r =>
            lookupCell r ((alignCoords (rs.map (fun r => r.ys))).getD iy 0)
              ((alignCoords (rs.map (fun r => r.xs))).getD ix 0)))))⟩ := by
    unfold calculate_median_index
    rw [hnotempty]
    rfl
  refine ⟨_, hcalc, fun r hr => ⟨fun y hy => ?_, fun x hx => ?_⟩⟩
  · exact mem_alignCoords _ r.ys y (List.mem_map_of_mem _ hr) hy
  · exact mem_alignCoords _ r.xs x (List.mem_map_of_mem _ hr) hx

/-- One-cell raster at y-coordinate 0, mismatching `raShifted`'s grid. -/
def raOrigin : DataArray := ⟨[0], [0], [[FVal.fin 1]]⟩

/-- One-cell raster at y-coordinate 1, mismatching `raOrigin`'s grid. -/
def raShifted : DataArray := ⟨[1], [0], [[FVal.fin 2]]⟩

/-- Counterexample to C6 as stated: two rasters with mismatched 1x1 grids
do not produce an AlignmentError; the reducer returns a padded 2x1 union
grid in which each raster's cell survives as its column's median. -/
theorem c6_counterexample :
    calculate_median_index [raOrigin, raShifted] =
      Except.ok ⟨[0, 1], [0], [[FVal.fin 1], [FVal.fin 2]]⟩ :=
  rfl

/-- Witness for C6 (amended) on the concrete mismatched pair. -/
theorem c6_witness :
    ∃ out, calculate_median_index [raOrigin, raShifted] = Except.ok out ∧
      ∀ r ∈ [raOrigin, raShifted],
        (∀ y ∈ r.ys, y ∈ out.ys) ∧ (∀ x ∈ r.xs, x ∈ out.xs) :=
  c6_mismatched_grids_outer_join [raOrigin, raShifted] (by decide)
